import Mathlib

/-!
Verification of the panch-tutorials repository against its specification.

The repository has two independent components:

* `src/python_streamlit/sample_apps/streamlit_demo_app.py` — a Streamlit demo
  app whose dashboard page filters and aggregates a seeded mock sales table
  (`generate_sales_data`, `generate_user_data`, the filter block at lines
  116–125 and the metrics block at lines 128–133).
* `src/sample_api/app/main.py` — a FastAPI echo API with four handlers
  (`health_check`, `get_item`, `create_item`, `update_item`) whose input
  validation is declared via `Query(..., ge=..., le=...)` and a pydantic model.

The embedding below translates those parts.  Python floats are modelled as
rationals; the numpy global random generator is modelled as an abstract state
(`Nat`) threaded explicitly, with the library's draw primitives abstracted into
a `NumpyRandom` record so that theorems depending on a documented library
contract (e.g. `randint(low, high)` draws in `[low, high)`) state that contract
as a hypothesis.  A small concrete instance `demoLib` witnesses that the
contracts are satisfiable.
-/

namespace StreamlitDemo

/-- A row of the mock sales table built by `generate_sales_data`
(columns `date`, `sales`, `quantity`, `category`, `region`).  Dates are
modelled as day indices into the fixed one-year date axis. -/
structure SalesRecord where
  date : Nat
  sales : ℚ
  quantity : Int
  category : String
  region : String
deriving DecidableEq, Repr

/-- A row of the mock user table built by `generate_user_data`
(columns `user_id`, `name`, `age`, `city`, `score`, `active`). -/
structure UserRecord where
  user_id : Nat
  name : String
  age : Int
  city : String
  score : ℚ
  active : Bool
deriving DecidableEq, Repr

/-- The fixed date axis:  `pd.date_range(start='2024-01-01', end='2024-12-31',
freq='D')` yields the 366 days of 2024, modelled as day indices `0, …, 365`. -/
def dates : List Nat := List.range 366

/-- The numpy global random generator, abstracted.  Its state is a `Nat`;
`seed k` is the state installed by `np.random.seed(k)`, and each draw
primitive returns the drawn array together with the successor state.
The distributional behaviour of the library is not modelled; theorems that
need a documented range contract of a primitive take it as a hypothesis. -/
structure NumpyRandom where
  seed : Nat → Nat
  normal : ℚ → ℚ → Nat → Nat → List ℚ × Nat
  randint : Int → Int → Nat → Nat → List Int × Nat
  choice : {α : Type} → List α → Nat → Nat → List α × Nat
  choice_p : {α : Type} → List α → List ℚ → Nat → Nat → List α × Nat

/-- Contract of `np.random.randint(low, high, size)`: every drawn value lies
in the half-open interval `[low, high)`. -/
def RandintContract (np : NumpyRandom) : Prop :=
  ∀ low high n s, low < high →
    ∀ x ∈ (np.randint low high n s).1, low ≤ x ∧ x < high

/-- Contract of `np.random.choice(options, size)` at type `String`: every
drawn value is one of the given options. -/
def ChoiceContract (np : NumpyRandom) : Prop :=
  ∀ (opts : List String) n s, ∀ x ∈ (np.choice opts n s).1, x ∈ opts

/-- Assembling the sales `DataFrame` from its five columns (row `i` takes the
`i`-th entry of every column). -/
def buildSales : List Nat → List ℚ → List Int → List String → List String →
    List SalesRecord
  | d :: ds, s :: ss, q :: qs, c :: cs, r :: rs =>
      ⟨d, s, q, c, r⟩ :: buildSales ds ss qs cs rs
  | _, _, _, _, _ => []

/-- Assembling the user `DataFrame` from its six columns. -/
def buildUsers : List Nat → List String → List Int → List String → List ℚ →
    List Bool → List UserRecord
  | i :: is, n :: ns, a :: as_, c :: cs, s :: ss, b :: bs =>
      ⟨i, n, a, c, s, b⟩ :: buildUsers is ns as_ cs ss bs
  | _, _, _, _, _, _ => []

/-- Translation of `generate_sales_data` (lines 34–48): seed the global
generator with 42, draw the four random columns over the one-year date axis,
build the frame, then replace the sales column by its absolute value
(`df['sales'] = df['sales'].abs()`).  The incoming generator state is the
global state before the call; it is discarded by the reseed. -/
def generate_sales_data (np : NumpyRandom) (g0 : Nat) :
    List SalesRecord × Nat :=
  let g := np.seed 42
  let n := dates.length
  let p1 := np.normal 1000 200 n g
  let p2 := np.randint 10 100 n p1.2
  let p3 := np.choice ["Electronics", "Clothing", "Food", "Books"] n p2.2
  let p4 := np.choice ["North", "South", "East", "West"] n p3.2
  let df := buildSales dates p1.1 p2.1 p3.1 p4.1
  let df := df.map (fun r => { r with sales := |r.sales| })
  (df, p4.2)

/-- Translation of `generate_user_data` (lines 50–64): seed the global
generator with 42, build the six columns (user ids `1..100`, names
`"User i"`, random age/city/score/active), then clamp the score column with
`df['score'].clip(0, 100)`. -/
def generate_user_data (np : NumpyRandom) (g0 : Nat) :
    List UserRecord × Nat :=
  let g := np.seed 42
  let ids := List.range' 1 100
  let names := ids.map (fun i => s!"User {i}")
  let p1 := np.randint 18 65 100 g
  let p2 := np.choice ["New York", "Los Angeles", "Chicago", "Houston", "Phoenix"] 100 p1.2
  let p3 := np.normal 75 15 100 p2.2
  let p4 := np.choice_p [true, false] [7/10, 3/10] 100 p3.2
  let df := buildUsers ids names p1.1 p2.1 p3.1 p4.1
  let df := df.map (fun r => { r with score := min (max r.score 0) 100 })
  (df, p4.2)

/-- Translation of the dashboard filter block (lines 116–125): first keep the
rows whose category and region are in the selected lists
(`isin(selected_categories) & isin(selected_regions)`), then, when the date
widget returned a complete two-date interval, keep the rows inside that
inclusive interval; an incomplete date selection (`date_range` not a 2-tuple,
modelled as `none`) skips the date filter. -/
def filterSales (table : List SalesRecord)
    (selected_categories selected_regions : List String)
    (date_range : Option (Nat × Nat)) : List SalesRecord :=
  let filtered := table.filter (fun r =>
    selected_categories.contains r.category &&
    selected_regions.contains r.region)
  match date_range with
  | some (d0, d1) =>
      filtered.filter (fun r => decide (d0 ≤ r.date) && decide (r.date ≤ d1))
  | none => filtered

/-- The `filtered_df['sales'].sum()` of the metrics block (line 129). -/
def salesSum (l : List SalesRecord) : ℚ := (l.map SalesRecord.sales).sum

/-- The `len(filtered_df)` of the metrics block (line 131). -/
def salesCount (l : List SalesRecord) : Nat := l.length

/-- The `filtered_df['sales'].mean()` of the metrics block (line 132):
pandas returns the sum divided by the row count, and `NaN` (its "no data"
marker) on an empty frame — modelled as `none`. -/
def salesMean (l : List SalesRecord) : Option ℚ :=
  if l.length = 0 then none else some (salesSum l / l.length)

/-- The `Total Sales` delta of the metrics block (line 130): filtered sum
minus unfiltered sum. -/
def totalSalesDelta (filtered table : List SalesRecord) : ℚ :=
  salesSum filtered - salesSum table

/-- Modelled from the spec (for comparison with `filterSales`): filtering as
the spec words it, where "an empty selection for any filter dimension is
treated as select all for that dimension". -/
def specFilterSales (table : List SalesRecord)
    (selected_categories selected_regions : List String)
    (date_range : Option (Nat × Nat)) : List SalesRecord :=
  table.filter (fun r =>
    (selected_categories.isEmpty || selected_categories.contains r.category) &&
    (selected_regions.isEmpty || selected_regions.contains r.region) &&
    (match date_range with
     | some (d0, d1) => decide (d0 ≤ r.date) && decide (r.date ≤ d1)
     | none => true))

/-- A linear congruential step, used only to build the concrete witness
instance `demoLib` of the abstract library interface. -/
def nextRand (s : Nat) : Nat := (s * 1103515245 + 12345) % 2 ^ 31

/-- Witness stand-in for `np.random.normal(mu, sigma, n)`: `n` deterministic
rational draws around `mu`. -/
def demoNormal (mu sigma : ℚ) : Nat → Nat → List ℚ × Nat
  | 0, s => ([], s)
  | n + 1, s =>
      let s1 := nextRand s
      let rest := demoNormal mu sigma n s1
      ((mu + sigma * (((s1 % 9 : Nat) : ℚ) - 4) / 2) :: rest.1, rest.2)

/-- Witness stand-in for `np.random.randint(low, high, n)`: `n` deterministic
draws in `[low, high)` by reduction modulo the width. -/
def demoRandint (low high : Int) : Nat → Nat → List Int × Nat
  | 0, s => ([], s)
  | n + 1, s =>
      let s1 := nextRand s
      let rest := demoRandint low high n s1
      ((low + (s1 : Int) % (high - low)) :: rest.1, rest.2)

/-- Witness stand-in for `np.random.choice(options, n)`: `n` deterministic
draws from the option list by modular indexing. -/
def demoChoice {α : Type} (opts : List α) : Nat → Nat → List α × Nat
  | 0, s => ([], s)
  | n + 1, s =>
      let s1 := nextRand s
      let rest := demoChoice opts n s1
      match opts.get? (s1 % opts.length) with
      | some x => (x :: rest.1, rest.2)
      | none => (rest.1, rest.2)

/-- A concrete instance of the abstract numpy interface, used to witness that
the library contracts assumed by the theorems are satisfiable. -/
def demoLib : NumpyRandom where
  seed k := k
  normal := demoNormal
  randint := demoRandint
  choice := @demoChoice
  choice_p {α} opts _probs := demoChoice (α := α) opts

end StreamlitDemo

namespace SampleApi

/-- The pydantic request model `Item` (main.py lines 8–10): required `name`,
optional `description` defaulting to null. -/
structure Item where
  name : String
  description : Option String
deriving DecidableEq, Repr

/-- The pydantic response model `ItemResponse` (main.py lines 13–17). -/
structure ItemResponse where
  item_id : String
  name : String
  description : Option String
  message : String
deriving DecidableEq, Repr

/-- The response shape of `get_item` (main.py lines 39–44). -/
structure GetItemResponse where
  item_id : String
  skip : Int
  limit : Int
  message : String
deriving DecidableEq, Repr

/-- The response shape of `health_check`. -/
structure HealthResponse where
  status : String
deriving DecidableEq, Repr

/-- A client-error (HTTP 422) validation failure produced by the framework
before a handler runs. -/
inductive ApiError where
  | validation : String → ApiError
deriving DecidableEq, Repr

/-- Translation of `health_check` (main.py lines 20–26). -/
def health_check : HealthResponse := ⟨"healthy"⟩

/-- The framework route for `GET /health`: the handler declares no
parameters, so whatever headers and body accompany the request are ignored
and the handler is invoked as is. -/
def handle_health (headers : List (String × String)) (body : String) :
    HealthResponse :=
  health_check

/-- Translation of the `get_item` handler body (main.py lines 39–44). -/
def get_item (item_id : String) (skip limit : Int) : GetItemResponse :=
  ⟨item_id, skip, limit, "GET request processed successfully"⟩

/-- The framework route for `GET /items/{item_id}`: the query parameters
(`none` when omitted from the URL) get their declared defaults
(`Query(0, ge=0)`, `Query(10, ge=1, le=100)`), the declared bounds are
checked before the handler runs, and a violation is a validation failure. -/
def handle_get_item (item_id : String) (skipArg limitArg : Option Int) :
    Except ApiError GetItemResponse :=
  let skip := skipArg.getD 0
  let limit := limitArg.getD 10
  if skip < 0 then
    Except.error (ApiError.validation "skip must be greater than or equal to 0")
  else if limit < 1 then
    Except.error (ApiError.validation "limit must be greater than or equal to 1")
  else if 100 < limit then
    Except.error (ApiError.validation "limit must be less than or equal to 100")
  else
    Except.ok (get_item item_id skip limit)

/-- A JSON request body for the `Item` model, before validation: each field
is present (`some`) or absent (`none`). -/
structure RawItemBody where
  name : Option String
  description : Option String
deriving DecidableEq, Repr

/-- Pydantic validation of a request body against `Item`: the required
`name` must be present, `description` defaults to null. -/
def parseItem (body : RawItemBody) : Except ApiError Item :=
  match body.name with
  | none => Except.error (ApiError.validation "field required: name")
  | some n => Except.ok ⟨n, body.description⟩

/-- Translation of the `create_item` handler body (main.py lines 47–58). -/
def create_item (item : Item) : ItemResponse :=
  ⟨"new_item", item.name, item.description, "POST request processed successfully"⟩

/-- The framework route for `POST /items`: validate the body, then run the
handler. -/
def handle_create_item (body : RawItemBody) : Except ApiError ItemResponse :=
  (parseItem body).map create_item

/-- Translation of the `update_item` handler body (main.py lines 61–72). -/
def update_item (item_id : String) (item : Item) : ItemResponse :=
  ⟨item_id, item.name, item.description, "PUT request processed successfully"⟩

/-- The framework route for `PUT /items/{item_id}`: validate the body, then
run the handler with the path parameter. -/
def handle_update_item (item_id : String) (body : RawItemBody) :
    Except ApiError ItemResponse :=
  (parseItem body).map (update_item item_id)

end SampleApi

namespace StreamlitDemo

/-- Membership in the assembled sales frame projects to membership in each
source column. -/
theorem mem_buildSales {ds : List Nat} {ss : List ℚ} {qs : List Int}
    {cs rs : List String} {r : SalesRecord}
    (hr : r ∈ buildSales ds ss qs cs rs) :
    r.date ∈ ds ∧ r.sales ∈ ss ∧ r.quantity ∈ qs ∧
    r.category ∈ cs ∧ r.region ∈ rs := by
  induction ds generalizing ss qs cs rs with
  | nil => simp [buildSales] at hr
  | cons d ds ih =>
    cases ss with
    | nil => simp [buildSales] at hr
    | cons s ss =>
      cases qs with
      | nil => simp [buildSales] at hr
      | cons q qs =>
        cases cs with
        | nil => simp [buildSales] at hr
        | cons c cs =>
          cases rs with
          | nil => simp [buildSales] at hr
          | cons rg rs =>
            rw [buildSales, List.mem_cons] at hr
            rcases hr with h | h
            · subst h; simp
            · have := ih h
              simp only [List.mem_cons]
              tauto

/-- Membership in the assembled user frame projects to membership in each
source column. -/
theorem mem_buildUsers {is : List Nat} {ns : List String} {as_ : List Int}
    {cs : List String} {ss : List ℚ} {bs : List Bool} {u : UserRecord}
    (hu : u ∈ buildUsers is ns as_ cs ss bs) :
    u.user_id ∈ is ∧ u.name ∈ ns ∧ u.age ∈ as_ ∧
    u.city ∈ cs ∧ u.score ∈ ss ∧ u.active ∈ bs := by
  induction is generalizing ns as_ cs ss bs with
  | nil => simp [buildUsers] at hu
  | cons i is ih =>
    cases ns with
    | nil => simp [buildUsers] at hu
    | cons n ns =>
      cases as_ with
      | nil => simp [buildUsers] at hu
      | cons a as_ =>
        cases cs with
        | nil => simp [buildUsers] at hu
        | cons c cs =>
          cases ss with
          | nil => simp [buildUsers] at hu
          | cons s ss =>
            cases bs with
            | nil => simp [buildUsers] at hu
            | cons b bs =>
              rw [buildUsers, List.mem_cons] at hu
              rcases hu with h | h
              · subst h; simp
              · have := ih h
                simp only [List.mem_cons]
                tauto

/-- Every row of the generated sales table is a row of the assembled frame
with the sales column replaced by its absolute value. -/
theorem mem_generate_sales {np : NumpyRandom} {g0 : Nat} {r : SalesRecord}
    (hr : r ∈ (generate_sales_data np g0).1) :
    ∃ r0 : SalesRecord,
      r = { r0 with sales := |r0.sales| } ∧
      r0 ∈ buildSales dates
        (np.normal 1000 200 dates.length (np.seed 42)).1
        (np.randint 10 100 dates.length
          (np.normal 1000 200 dates.length (np.seed 42)).2).1
        (np.choice ["Electronics", "Clothing", "Food", "Books"] dates.length
          (np.randint 10 100 dates.length
            (np.normal 1000 200 dates.length (np.seed 42)).2).2).1
        (np.choice ["North", "South", "East", "West"] dates.length
          (np.choice ["Electronics", "Clothing", "Food", "Books"] dates.length
            (np.randint 10 100 dates.length
              (np.normal 1000 200 dates.length (np.seed 42)).2).2).2).1 := by
  simp only [generate_sales_data] at hr
  rcases List.mem_map.mp hr with ⟨r0, h0, rfl⟩
  exact ⟨r0, rfl, h0⟩

/-- The `abs` post-processing step makes every generated sales value
non-negative, whatever the library draws. -/
theorem sales_nonneg {np : NumpyRandom} {g0 : Nat} :
    ∀ r ∈ (generate_sales_data np g0).1, 0 ≤ r.sales := by
  intro r hr
  rcases mem_generate_sales hr with ⟨r0, rfl, _⟩
  exact abs_nonneg _

/-- Every row of the generated user table is a clip-post-processed row of
the assembled frame, and its age comes from the `randint 18 65` draw. -/
theorem mem_generate_users {np : NumpyRandom} {g0 : Nat} {u : UserRecord}
    (hu : u ∈ (generate_user_data np g0).1) :
    ∃ u0 : UserRecord,
      u = { u0 with score := min (max u0.score 0) 100 } ∧
      u0.age ∈ (np.randint 18 65 100 (np.seed 42)).1 := by
  simp only [generate_user_data] at hu
  rcases List.mem_map.mp hu with ⟨u0, h0, rfl⟩
  exact ⟨u0, rfl, (mem_buildUsers h0).2.2.1⟩

/-- The two-stage dashboard filter collapses to a single pass keeping the
rows that satisfy the conjunction of the three dimension predicates. -/
theorem filterSales_eq_filter (table : List SalesRecord)
    (cats regs : List String) (dr : Option (Nat × Nat)) :
    filterSales table cats regs dr =
      table.filter (fun r =>
        cats.contains r.category && regs.contains r.region &&
        (match dr with
         | some (d0, d1) => decide (d0 ≤ r.date) && decide (r.date ≤ d1)
         | none => true)) := by
  cases dr with
  | none =>
    simp only [filterSales]
    exact (List.filter_congr (fun a _ => by rw [Bool.and_true])).symm
  | some p =>
    cases p with
    | mk d0 d1 =>
      simp only [filterSales, List.filter_filter]
      exact List.filter_congr (fun a _ => by rw [Bool.and_comm])

/-- Dropping rows cannot increase the sales sum when all sales values are
non-negative. -/
theorem salesSum_filter_le (table : List SalesRecord) (p : SalesRecord → Bool)
    (h : ∀ r ∈ table, 0 ≤ r.sales) :
    salesSum (table.filter p) ≤ salesSum table := by
  unfold salesSum
  refine List.Sublist.sum_le_sum
    (List.Sublist.map SalesRecord.sales (List.filter_sublist table)) ?_
  intro a ha
  rcases List.mem_map.mp ha with ⟨r, hr, rfl⟩
  exact h r hr

/-- The witness stand-in `demoRandint` satisfies the half-open range
contract of `np.random.randint`. -/
theorem demoRandint_mem {low high : Int} (hlh : low < high) :
    ∀ (n s : Nat), ∀ x ∈ (demoRandint low high n s).1, low ≤ x ∧ x < high := by
  intro n
  induction n with
  | zero => intro s x hx; simp [demoRandint] at hx
  | succ m ih =>
    intro s x hx
    rw [demoRandint, List.mem_cons] at hx
    rcases hx with h | h
    · subst h
      constructor
      · have : (0 : Int) ≤ (nextRand s : Int) % (high - low) :=
          Int.emod_nonneg _ (by omega)
        omega
      · have : (nextRand s : Int) % (high - low) < high - low :=
          Int.emod_lt_of_pos _ (by omega)
        omega
    · exact ih (nextRand s) x h

/-- The concrete instance `demoLib` satisfies the `randint` contract. -/
theorem demoLib_randint : RandintContract demoLib := by
  intro low high n s hlh x hx
  exact demoRandint_mem hlh n s x hx

/-- The witness stand-in `demoChoice` only returns elements of the option
list, as `np.random.choice` does. -/
theorem demoChoice_mem {α : Type} (opts : List α) :
    ∀ (n s : Nat), ∀ x ∈ (demoChoice opts n s).1, x ∈ opts := by
  intro n
  induction n with
  | zero => intro s x hx; simp [demoChoice] at hx
  | succ m ih =>
    intro s x hx
    rw [demoChoice] at hx
    revert hx
    cases hg : opts.get? (nextRand s % opts.length) with
    | none => intro hx; exact ih (nextRand s) x hx
    | some y =>
      intro hx
      rcases List.mem_cons.mp hx with h | h
      · subst h; exact List.get?_mem hg
      · exact ih (nextRand s) x h

/-- The concrete instance `demoLib` satisfies the `choice` contract. -/
theorem demoLib_choice : ChoiceContract demoLib := by
  intro opts n s x hx
  exact demoChoice_mem opts n s x hx

end StreamlitDemo

namespace StreamlitDemo

/-- C3: for the fixed seed, two invocations of the sales-table generator
produce identical records field by field, and likewise for the user-table
generator — whatever the incoming global generator states, the reseed with 42
makes both runs produce the same tables. -/
theorem generation_deterministic (np : NumpyRandom) (g1 g2 : Nat) :
    (generate_sales_data np g1).1 = (generate_sales_data np g2).1 ∧
    (generate_user_data np g1).1 = (generate_user_data np g2).1 :=
  ⟨rfl, rfl⟩

/-- C4: every generated sales value is non-negative, every generated score
lies in `[0, 100]`, and — assuming the documented range contract of the
library's `randint` — every generated age lies in `[18, 65)`. -/
theorem generated_field_bounds (np : NumpyRandom) (g0 : Nat)
    (hri : RandintContract np) :
    (∀ r ∈ (generate_sales_data np g0).1, 0 ≤ r.sales) ∧
    (∀ u ∈ (generate_user_data np g0).1, 0 ≤ u.score ∧ u.score ≤ 100) ∧
    (∀ u ∈ (generate_user_data np g0).1, 18 ≤ u.age ∧ u.age < 65) := by
  refine ⟨fun r hr => sales_nonneg r hr, ?_, ?_⟩
  · intro u hu
    rcases mem_generate_users hu with ⟨u0, rfl, _⟩
    exact ⟨le_min (le_max_right _ _) (by norm_num), min_le_right _ _⟩
  · intro u hu
    rcases mem_generate_users hu with ⟨u0, rfl, hage⟩
    exact hri 18 65 100 (np.seed 42) (by decide) u0.age hage

/-- Witness for C4: the concrete library instance `demoLib` satisfies the
`randint` contract, and the field bounds hold for the tables it generates. -/
theorem generated_field_bounds_check :
    RandintContract demoLib ∧
    ((∀ r ∈ (generate_sales_data demoLib 0).1, 0 ≤ r.sales) ∧
     (∀ u ∈ (generate_user_data demoLib 0).1, 0 ≤ u.score ∧ u.score ≤ 100) ∧
     (∀ u ∈ (generate_user_data demoLib 0).1, 18 ≤ u.age ∧ u.age < 65)) :=
  ⟨demoLib_randint, generated_field_bounds demoLib 0 demoLib_randint⟩

/-- C1, counterexample: an empty category selection is not treated as
"select all".  On a one-row table whose region matches the selected region,
the dashboard filter with an empty category selection drops the row, while
the spec's empty-selects-all filter keeps it. -/
theorem empty_selection_differs :
    filterSales [⟨0, 5, 1, "Food", "North"⟩] [] ["North"] none ≠
      specFilterSales [⟨0, 5, 1, "Food", "North"⟩] [] ["North"] none := by
  decide

/-- C1, amended: the filtered subset equals the rows satisfying the
conjunction of the active filter predicates (category membership, region
membership, and the inclusive date check when a complete interval is
selected; an incomplete date selection disables the date dimension) — but an
empty category selection excludes every record rather than selecting all
(and symmetrically for regions, by the same conjunction). -/
theorem filter_conjunction (table : List SalesRecord)
    (cats regs : List String) (dr : Option (Nat × Nat)) :
    (filterSales table cats regs dr =
      table.filter (fun r =>
        cats.contains r.category && regs.contains r.region &&
        (match dr with
         | some (d0, d1) => decide (d0 ≤ r.date) && decide (r.date ≤ d1)
         | none => true))) ∧
    filterSales table [] regs dr = [] := by
  refine ⟨filterSales_eq_filter table cats regs dr, ?_⟩
  rw [filterSales_eq_filter]
  simp

/-- C5: filtering the generated sales table with the full category set, the
full region set, and the full generated date range is the identity, assuming
the documented membership contract of the library's `choice`. -/
theorem full_selection_identity (np : NumpyRandom) (g0 : Nat)
    (hc : ChoiceContract np) :
    filterSales (generate_sales_data np g0).1
      ["Electronics", "Clothing", "Food", "Books"]
      ["North", "South", "East", "West"]
      (some (0, 365)) = (generate_sales_data np g0).1 := by
  rw [filterSales_eq_filter]
  apply List.filter_eq_self.mpr
  intro r hr
  rcases mem_generate_sales hr with ⟨r0, rfl, h0⟩
  have hmem := mem_buildSales h0
  have hcat : r0.category ∈ ["Electronics", "Clothing", "Food", "Books"] :=
    hc _ _ _ _ hmem.2.2.2.1
  have hreg : r0.region ∈ ["North", "South", "East", "West"] :=
    hc _ _ _ _ hmem.2.2.2.2
  have hd365 : r0.date ≤ 365 := by
    have := List.mem_range.mp (by simpa [dates] using hmem.1)
    omega
  simp [hcat, hreg, hd365]

/-- Witness for C5: the concrete library instance `demoLib` satisfies the
`choice` contract, and full selections leave its generated table unchanged. -/
theorem full_selection_identity_check :
    ChoiceContract demoLib ∧
    filterSales (generate_sales_data demoLib 0).1
      ["Electronics", "Clothing", "Food", "Books"]
      ["North", "South", "East", "West"]
      (some (0, 365)) = (generate_sales_data demoLib 0).1 :=
  ⟨demoLib_choice, full_selection_identity demoLib 0 demoLib_choice⟩

/-- C2: on any filter combination whose filtered subset is empty, the
summary statistics are total functions with safe values: the sum is `0`,
the count is `0`, and the mean is the explicit no-data marker (pandas
`NaN`, modelled as `none`). -/
theorem empty_subset_stats (table : List SalesRecord)
    (cats regs : List String) (dr : Option (Nat × Nat))
    (h : filterSales table cats regs dr = []) :
    salesSum (filterSales table cats regs dr) = 0 ∧
    salesCount (filterSales table cats regs dr) = 0 ∧
    salesMean (filterSales table cats regs dr) = none := by
  rw [h]
  exact ⟨rfl, rfl, rfl⟩

/-- Witness for C2: a category present in the data combined with a region
disjoint from all rows yields an empty subset with safe statistics. -/
theorem empty_subset_stats_check :
    filterSales [⟨0, 5, 1, "Food", "North"⟩] ["Food"] ["South"] none = [] ∧
    (salesSum (filterSales [⟨0, 5, 1, "Food", "North"⟩] ["Food"] ["South"] none) = 0 ∧
     salesCount (filterSales [⟨0, 5, 1, "Food", "North"⟩] ["Food"] ["South"] none) = 0 ∧
     salesMean (filterSales [⟨0, 5, 1, "Food", "North"⟩] ["Food"] ["South"] none) = none) :=
  ⟨by decide, empty_subset_stats _ _ _ _ (by decide)⟩

/-- C10: for every filter combination, the sum of sales over the filtered
subset is at most the sum over the full generated table, so the dashboard's
Total Sales delta (filtered sum minus total sum) is never positive. -/
theorem filtered_sum_le_total (np : NumpyRandom) (g0 : Nat)
    (cats regs : List String) (dr : Option (Nat × Nat)) :
    salesSum (filterSales (generate_sales_data np g0).1 cats regs dr) ≤
      salesSum (generate_sales_data np g0).1 ∧
    totalSalesDelta (filterSales (generate_sales_data np g0).1 cats regs dr)
      (generate_sales_data np g0).1 ≤ 0 := by
  have hle : salesSum (filterSales (generate_sales_data np g0).1 cats regs dr) ≤
      salesSum (generate_sales_data np g0).1 := by
    rw [filterSales_eq_filter]
    exact salesSum_filter_le _ _ sales_nonneg
  refine ⟨hle, ?_⟩
  unfold totalSalesDelta
  linarith

end StreamlitDemo

namespace SampleApi

/-- C6: `get_item` with both parameters omitted uses the defaults
`skip = 0`, `limit = 10`; any request with `skip < 0` or `limit` outside
`[1, 100]` is rejected with a validation error before the handler runs (in
particular `GET /items/abc?skip=-1`); and any in-range request returns
`item_id`, `skip` and `limit` verbatim plus the fixed message. -/
theorem get_item_validation (item_id : String) (skipArg limitArg : Option Int) :
    (handle_get_item item_id none none =
        Except.ok ⟨item_id, 0, 10, "GET request processed successfully"⟩) ∧
    (skipArg.getD 0 < 0 ∨ limitArg.getD 10 < 1 ∨ 100 < limitArg.getD 10 →
        ∃ e, handle_get_item item_id skipArg limitArg = Except.error e) ∧
    (0 ≤ skipArg.getD 0 → 1 ≤ limitArg.getD 10 → limitArg.getD 10 ≤ 100 →
        handle_get_item item_id skipArg limitArg =
          Except.ok ⟨item_id, skipArg.getD 0, limitArg.getD 10,
            "GET request processed successfully"⟩) ∧
    (∃ e, handle_get_item "abc" (some (-1)) none = Except.error e) := by
  refine ⟨rfl, ?_, ?_, ⟨_, rfl⟩⟩
  · intro h
    simp only [handle_get_item]
    split_ifs with h1 h2 h3
    · exact ⟨_, rfl⟩
    · exact ⟨_, rfl⟩
    · exact ⟨_, rfl⟩
    · omega
  · intro h1 h2 h3
    simp only [handle_get_item]
    split_ifs with g1 g2 g3
    · omega
    · omega
    · omega
    · rfl

/-- Witness for C6: a concrete in-range request echoes its parameters. -/
theorem get_item_validation_check :
    (0 : Int) ≤ 5 ∧
    handle_get_item "abc" (some 5) (some 50) =
      Except.ok ⟨"abc", 5, 50, "GET request processed successfully"⟩ :=
  ⟨by decide,
   (get_item_validation "abc" (some 5) (some 50)).2.2.1
     (by decide) (by decide) (by decide)⟩

/-- C7: a `POST /items` body missing the required `name` field is a
validation failure; every body with a `name` (description optional, null
when absent) succeeds and returns the fixed identifier `"new_item"`, the
echoed fields, and the fixed message — including the `{"name":"Widget"}`
example. -/
theorem create_item_contract :
    (∀ desc, ∃ e, handle_create_item ⟨none, desc⟩ = Except.error e) ∧
    (∀ name desc, handle_create_item ⟨some name, desc⟩ =
        Except.ok ⟨"new_item", name, desc, "POST request processed successfully"⟩) ∧
    handle_create_item ⟨some "Widget", none⟩ =
      Except.ok ⟨"new_item", "Widget", none, "POST request processed successfully"⟩ :=
  ⟨fun _ => ⟨_, rfl⟩, fun _ _ => rfl, rfl⟩

/-- C8: every valid `PUT /items/{item_id}` request returns the path
`item_id` verbatim with the echoed `name` and `description` and the fixed
message — including the `PUT /items/123` example. -/
theorem update_item_contract :
    (∀ item_id name desc, handle_update_item item_id ⟨some name, desc⟩ =
        Except.ok ⟨item_id, name, desc, "PUT request processed successfully"⟩) ∧
    handle_update_item "123" ⟨some "X", some "Y"⟩ =
      Except.ok ⟨"123", "X", some "Y", "PUT request processed successfully"⟩ :=
  ⟨fun _ _ _ => rfl, rfl⟩

/-- C9: the health endpoint is a total function that returns exactly
`{"status": "healthy"}` for every combination of request headers and body. -/
theorem health_check_constant :
    (∀ headers body, handle_health headers body = ⟨"healthy"⟩) ∧
    health_check = ⟨"healthy"⟩ :=
  ⟨fun _ _ => rfl, rfl⟩

end SampleApi
